import Mathlib

/-!
Verification development for the SolarVisionAI zone/metrics subsystem
(src/script.js).  The JavaScript code is shallowly embedded: pure numeric
functions become functions over ℚ (with an explicit model of the IEEE
special values Infinity, -Infinity and NaN where division by zero matters),
the mutable application object becomes an explicit state record, and each
event handler becomes a state-transition function.  The external geodesic
area routine (L.GeometryUtil.geodesicArea) is modelled as an explicit
function parameter geoArea over an abstract latLng-list geometry.
-/

namespace SolarVision

/-- Model of a JavaScript number as used by the arithmetic in script.js:
either a finite value (modelled exactly as a rational) or one of the IEEE
special values.  Negative zero is not distinguished from zero; none of the
embedded code paths depend on the sign of zero. -/
inductive JSNum where
| num (q : ℚ)
| inf
| negInf
| nan
deriving DecidableEq, Repr

/-- JavaScript division, including the IEEE division-by-zero behaviour:
x/0 is NaN for x = 0, Infinity for x > 0 and -Infinity for x < 0. -/
def jsDiv : JSNum → JSNum → JSNum
| .nan, _ => .nan
| _, .nan => .nan
| .num a, .num b =>
    if b = 0 then (if a = 0 then .nan else if 0 < a then .inf else .negInf)
    else .num (a / b)
| .inf, .num b => if 0 ≤ b then .inf else .negInf
| .negInf, .num b => if 0 ≤ b then .negInf else .inf
| .num _, .inf => .num 0
| .num _, .negInf => .num 0
| .inf, .inf => .nan
| .inf, .negInf => .nan
| .negInf, .inf => .nan
| .negInf, .negInf => .nan

/-- JavaScript multiplication on the modelled numbers. -/
def jsMul : JSNum → JSNum → JSNum
| .nan, _ => .nan
| _, .nan => .nan
| .num a, .num b => .num (a * b)
| .inf, .num b => if b = 0 then .nan else if 0 < b then .inf else .negInf
| .num b, .inf => if b = 0 then .nan else if 0 < b then .inf else .negInf
| .negInf, .num b => if b = 0 then .nan else if 0 < b then .negInf else .inf
| .num b, .negInf => if b = 0 then .nan else if 0 < b then .negInf else .inf
| .inf, .inf => .inf
| .negInf, .negInf => .inf
| .inf, .negInf => .negInf
| .negInf, .inf => .negInf

/-- JavaScript Math.min: NaN contaminates, otherwise the usual minimum. -/
def jsMin : JSNum → JSNum → JSNum
| .nan, _ => .nan
| _, .nan => .nan
| .negInf, _ => .negInf
| _, .negInf => .negInf
| .inf, b => b
| a, .inf => a
| .num a, .num b => .num (min a b)

/-- JavaScript Math.round: half-up rounding (ties toward +infinity), which
coincides with Mathlib round on ℚ; NaN and the infinities pass through. -/
def jsRound : JSNum → JSNum
| .num q => .num ((round q : ℤ) : ℚ)
| x => x

/-- Rounding to one decimal place, Math.round(x * 10) / 10 in script.js. -/
def jsRound1 : JSNum → JSNum
| .num q => .num (((round (q * 10) : ℤ) : ℚ) / 10)
| x => x

/-! ### Geometry and zone data model (src/script.js lines 206-240) -/

/-- The shape kinds the drawing toolbar can produce. -/
inductive ShapeKind where
| polygon
| rectangle
deriving DecidableEq, Repr

/-- A drawn layer's geometry, modelled as its vertex list.  The code treats
geometry as opaque and only feeds it to the external geodesic-area
routine, which is modelled as a function parameter geoArea below. -/
structure Geometry where
  latLngs : List (ℚ × ℚ)
deriving DecidableEq, Repr

/-- One zone record, as built in onDrawCreated (script.js lines 229-237).
The field named efficiency in the source holds the performance ratio. -/
structure Zone where
  id : Nat
  geometry : Geometry
  shape : ShapeKind
  area : ℚ
  panelCount : Nat
  panelWattage : ℚ
  efficiency : ℚ
deriving DecidableEq, Repr

/-! ### MetricsEngine functions (script.js lines 361-372, 746-789) -/

/-- calculatePanelCount (script.js lines 361-364): returns the constant
default 25 regardless of the area argument. -/
def calculatePanelCount (_area : ℚ) : Nat := 25

/-- calculateMaxRecommendedPanels (script.js lines 366-372). -/
def calculateMaxRecommendedPanels (area : ℚ) : ℤ :=
  let panelArea : ℚ := 2
  let spacingFactor : ℚ := 0.7
  Int.floor ((area * spacingFactor) / panelArea)

/-- calculateEnergyOutput (script.js lines 746-773).  sunlightDaily models
this.sunlightData && this.sunlightData.daily: none when no sunlight data
has been fetched, and a zero value is falsy in JavaScript so it also falls
back to the conservative 4.2-hour default.  Likewise zoneData.efficiency
and the 0.85 fallback. -/
def calculateEnergyOutput (sunlightDaily : Option ℚ) (zoneData : Zone) : ℚ :=
  let systemSize := ((zoneData.panelCount : ℚ) * zoneData.panelWattage) / 1000
  let peakSunHours : ℚ :=
    match sunlightDaily with
    | some d => if d = 0 then 4.2 else d
    | none => 4.2
  let performanceRatio := if zoneData.efficiency = 0 then 0.85 else zoneData.efficiency
  systemSize * peakSunHours * 365 * performanceRatio

/-- calculateEfficiencyScore (script.js lines 775-784), with JavaScript
number semantics so that the behaviour at systemSize = 0 (no guard inside
the function) is captured faithfully. -/
def calculateEfficiencyScore (annualOutput systemSize : ℚ) : JSNum :=
  let outputPerKW := jsDiv (.num annualOutput) (.num systemSize)
  let efficiencyScore := jsMin (jsMul (jsDiv outputPerKW (.num 1200)) (.num 100)) (.num 100)
  jsRound efficiencyScore

/-- The guarded overall-efficiency expression at the aggregate call site,
script.js line 814: totalPower > 0 ? calculateEfficiencyScore(...) : 0. -/
def overallEfficiencyOf (totalAnnualOutput totalPower : ℚ) : JSNum :=
  if 0 < totalPower then calculateEfficiencyScore totalAnnualOutput totalPower else .num 0

/-- The single-zone efficiency displayed by updateSelectedZoneStats
(script.js lines 577-588); the raw calculateEfficiencyScore is applied
with no zero-size guard. -/
def selectedZoneEfficiency (sunlightDaily : Option ℚ) (zoneData : Zone) : JSNum :=
  let energyOutput := calculateEnergyOutput sunlightDaily zoneData
  let systemSize := ((zoneData.panelCount : ℚ) * zoneData.panelWattage) / 1000
  calculateEfficiencyScore energyOutput systemSize

/-- The payback-period expression, script.js line 1777 and line 2068:
systemCost / (monthlySavings * 12), evaluated with JavaScript number
semantics (no guard in the source). -/
def paybackPeriod (systemCost monthlySavings : ℚ) : JSNum :=
  jsDiv (.num systemCost) (.num (monthlySavings * 12))

/-! ### Application state and event handlers (ZoneStore) -/

/-- The mutable fields of the SolarVisionAI object that the zone subsystem
touches: the zone collection, the selection, the monotone id counter and
the edit-session fields (currentEditHandler is modelled by the boolean
editActive, currentEditingZone and originalGeometry by the two options).
The selection and the editing-zone reference are modelled by zone id. -/
structure AppState where
  drawingZones : List Zone
  selectedZone : Option Nat
  zoneCounter : Nat
  editActive : Bool
  currentEditingZone : Option Nat
  originalGeometry : Option Geometry
deriving DecidableEq, Repr

/-- The initial state set up in the constructor (script.js lines 5-12). -/
def initialState : AppState :=
  { drawingZones := [], selectedZone := none, zoneCounter := 0,
    editActive := false, currentEditingZone := none, originalGeometry := none }

/-- onDrawCreated (script.js lines 206-314): bumps the counter, computes the
area through the external adapter, builds the zone record with the default
panel configuration, appends it, and auto-selects the new zone (the
delayed auto-select block at lines 257-306 sets this.selectedZone). -/
def onDrawCreated (geoArea : Geometry → ℚ) (layer : Geometry) (shape : ShapeKind)
    (s : AppState) : AppState :=
  let counter := s.zoneCounter + 1
  let zoneData : Zone :=
    { id := counter, geometry := layer, shape := shape, area := geoArea layer,
      panelCount := 25, panelWattage := 400, efficiency := 0.85 }
  { s with drawingZones := s.drawingZones ++ [zoneData],
           zoneCounter := counter,
           selectedZone := some counter }

/-- onDrawEdited (script.js lines 316-335) for a single edited layer: the
mapping widget has already replaced the layer's vertices with newGeom, and
the handler recomputes the matching zone's area from the new geometry and
reassigns panelCount from calculatePanelCount. -/
def onDrawEdited (geoArea : Geometry → ℚ) (zoneId : Nat) (newGeom : Geometry)
    (s : AppState) : AppState :=
  { s with drawingZones := s.drawingZones.map fun zoneData =>
      if zoneData.id = zoneId then
        { zoneData with geometry := newGeom,
                        area := geoArea newGeom,
                        panelCount := calculatePanelCount (geoArea newGeom) }
      else zoneData }

/-- onDrawDeleted (script.js lines 337-347) for a single deleted layer:
filters the zone out of the collection; the selection fields are not
touched by this handler. -/
def onDrawDeleted (zoneId : Nat) (s : AppState) : AppState :=
  { s with drawingZones := s.drawingZones.filter fun zoneData => zoneData.id ≠ zoneId }

/-- selectZone (script.js lines 506-546): stores the picked zone as the
selection (highlighting is presentation only). -/
def selectZone (zoneId : Nat) (s : AppState) : AppState :=
  { s with selectedZone := some zoneId }

/-- JavaScript Array.prototype.findIndex, with none in place of -1: the
index of the first element satisfying the predicate. -/
def findIndex (p : Zone → Bool) : List Zone → Option Nat
| [] => none
| zoneData :: rest =>
    if p zoneData then some 0 else (findIndex p rest).map (· + 1)

/-- deleteZone (script.js lines 902-936): looks the zone up by id (no-op
when absent), removes the entry at the found index (splice), clears the
selection when the deleted zone was selected, and then auto-selects the
first remaining zone whenever the collection is non-empty and nothing is
selected. -/
def deleteZone (zoneId : Nat) (s : AppState) : AppState :=
  match findIndex (fun zoneData => zoneData.id = zoneId) s.drawingZones with
  | none => s
  | some zoneIndex =>
    let zones := s.drawingZones.eraseIdx zoneIndex
    let selAfterClear : Option Nat :=
      if s.selectedZone = some zoneId then none else s.selectedZone
    let selFinal : Option Nat :=
      match zones, selAfterClear with
      | firstZone :: _, none => some firstZone.id
      | _, sel => sel
    { s with drawingZones := zones, selectedZone := selFinal }

/-- editZone (script.js lines 827-848): when the zone exists, snapshots its
current geometry into originalGeometry, records it as the zone being
edited and enables the edit handler — without checking whether another
edit session is already active. -/
def editZone (zoneId : Nat) (s : AppState) : AppState :=
  match s.drawingZones.find? (fun zoneData => zoneData.id = zoneId) with
  | none => s
  | some zoneData =>
    { s with originalGeometry := some zoneData.geometry,
             currentEditingZone := some zoneData.id,
             editActive := true }

/-- The mapping widget's in-place vertex mutation during an edit session
(the external L.EditToolbar.Edit handler dragging vertices): the layer's
geometry changes, while the zone's stored area is untouched until save or
cancel. -/
def mutateGeometry (zoneId : Nat) (newGeom : Geometry) (s : AppState) : AppState :=
  { s with drawingZones := s.drawingZones.map fun zoneData =>
      if zoneData.id = zoneId then { zoneData with geometry := newGeom } else zoneData }

/-- cancelZoneEdit (script.js lines 867-889) followed by hideEditActions
(lines 891-900): when an edit handler, an editing zone and a snapshot are
all present, restores the zone's geometry from the snapshot, recomputes
its area from the restored geometry, and clears the session fields. -/
def cancelZoneEdit (geoArea : Geometry → ℚ) (s : AppState) : AppState :=
  match s.editActive, s.currentEditingZone, s.originalGeometry with
  | true, some zoneId, some savedGeom =>
    let zones := s.drawingZones.map fun zoneData =>
      if zoneData.id = zoneId then
        { zoneData with geometry := savedGeom, area := geoArea savedGeom }
      else zoneData
    { s with drawingZones := zones, editActive := false,
             currentEditingZone := none, originalGeometry := none }
  | _, _, _ => s

/-- The slider input handler (script.js lines 1512-1536): when a zone is
selected, it always stores the new panel count on the selected zone and
computes whether the over-recommended warning is shown.  Returns the new
state together with the warning flag. -/
def sliderInput (panelCount : Nat) (s : AppState) : AppState × Bool :=
  match s.selectedZone with
  | none => (s, false)
  | some zoneId =>
    match s.drawingZones.find? (fun zoneData => zoneData.id = zoneId) with
    | none => (s, false)
    | some zoneData =>
      let warning := (panelCount : ℤ) > calculateMaxRecommendedPanels zoneData.area
      let zones := s.drawingZones.map fun z =>
        if z.id = zoneId then { z with panelCount := panelCount } else z
      ({ s with drawingZones := zones }, warning)

/-! ### AggregationEngine (script.js lines 791-825) -/

/-- The totals assembled by updateZoneAnalysis. -/
structure Totals where
  zones : Nat
  totalArea : ℚ
  totalPanels : Nat
  totalPower : ℚ
  totalAnnualOutput : ℚ
  overallEfficiency : JSNum
deriving DecidableEq, Repr

/-- One iteration of the forEach accumulation in updateZoneAnalysis
(script.js lines 804-811): running totals of area, panels, power and
annual output. -/
def aggregateStep (sunlightDaily : Option ℚ) (t : ℚ × Nat × ℚ × ℚ) (zone : Zone) :
    ℚ × Nat × ℚ × ℚ :=
  let energyOutput := calculateEnergyOutput sunlightDaily zone
  (t.1 + zone.area,
   t.2.1 + zone.panelCount,
   t.2.2.1 + ((zone.panelCount : ℚ) * zone.panelWattage) / 1000,
   t.2.2.2 + energyOutput)

/-- The accumulation loop of updateZoneAnalysis (script.js lines 797-814),
folding over the zone collection exactly as the forEach does and then
applying the guarded overall-efficiency expression of line 814. -/
def aggregateTotals (sunlightDaily : Option ℚ) (zones : List Zone) : Totals :=
  let acc := zones.foldl (aggregateStep sunlightDaily) (0, 0, 0, 0)
  { zones := zones.length,
    totalArea := acc.1,
    totalPanels := acc.2.1,
    totalPower := acc.2.2.1,
    totalAnnualOutput := acc.2.2.2,
    overallEfficiency := overallEfficiencyOf acc.2.2.2 acc.2.2.1 }

/-- updateZoneAnalysis (script.js lines 791-825): on an empty collection the
function returns early and hides the analysis panel (modelled as none);
otherwise it shows the computed totals. -/
def updateZoneAnalysis (sunlightDaily : Option ℚ) (s : AppState) : Option Totals :=
  if s.drawingZones = [] then none else some (aggregateTotals sunlightDaily s.drawingZones)

/-! ### Sunshine-data processing (script.js lines 1163-1211) -/

/-- The per-entry processing in fetchSunlightData (script.js lines
1168-1175): null entries stay null, values above 24 are treated as seconds
and converted to hours, and values at most 24 pass through unchanged. -/
def processSunshineValue : Option ℚ → Option ℚ
| none => none
| some seconds => if 24 < seconds then some (seconds / 3600) else some seconds

/-- The processedHours array (script.js line 1168). -/
def processHours (sunlightHours : List (Option ℚ)) : List (Option ℚ) :=
  sunlightHours.map processSunshineValue

/-- The filter of non-null entries in calculateDailyAverage (line 1208). -/
def validHours (sunlightHours : List (Option ℚ)) : List ℚ :=
  sunlightHours.filterMap id

/-- calculateDailyAverage (script.js lines 1207-1211), with JavaScript
number semantics so that the empty-list division is captured. -/
def calculateDailyAverage (sunlightHours : List (Option ℚ)) : JSNum :=
  let valid := validHours sunlightHours
  jsRound1 (jsDiv (.num valid.sum) (.num (valid.length : ℚ)))

/-! ### Concrete fixtures used by witnesses and counterexamples -/

/-- A small concrete geometry. -/
def geomA : Geometry := ⟨[(0, 0), (0, 1), (1, 1), (1, 0)]⟩

/-- A second, different concrete geometry. -/
def geomB : Geometry := ⟨[(0, 0), (0, 2), (2, 2), (2, 0)]⟩

/-- A zone with the default creation parameters and a 100 m² area. -/
def zoneA : Zone :=
  { id := 1, geometry := geomA, shape := .polygon, area := 100,
    panelCount := 25, panelWattage := 400, efficiency := 0.85 }

/-- A second zone with a 200 m² area. -/
def zoneB : Zone :=
  { id := 2, geometry := geomB, shape := .rectangle, area := 200,
    panelCount := 25, panelWattage := 400, efficiency := 0.85 }

/-- A zone whose panel count has been slid down to zero. -/
def zoneNoPanels : Zone := { zoneA with panelCount := 0 }

/-! ### Helper lemmas -/

/-- Rounding after clamping at 100 agrees with clamping the rounded value:
this bridges the order of operations in the source (Math.round applied to
the Math.min result) and in the specification (min applied outside). -/
theorem round_min_hundred (q : ℚ) : round (min q 100) = min 100 (round q) := by
  have h100 : round (100 : ℚ) = 100 := by
    simp
  rcases le_total q 100 with h | h
  · have hr : round q ≤ 100 := by
      rw [← h100, round_eq, round_eq]
      exact Int.floor_le_floor (by linarith)
    rw [min_eq_left h, min_eq_right hr]
  · have hr : 100 ≤ round q := by
      rw [← h100, round_eq, round_eq]
      exact Int.floor_le_floor (by linarith)
    rw [min_eq_right h, h100, min_eq_left hr]

/-- The recommended maximum for a 140 m² zone evaluates to 49. -/
theorem maxRecommended_at_140 : calculateMaxRecommendedPanels 140 = 49 := by
  have h : ((140 : ℚ) * 0.7 / 2) = 49 := by norm_num
  simp [calculateMaxRecommendedPanels, h]

/-- For a nonzero system size the efficiency score agrees with the
closed-form min-round expression of the specification. -/
theorem efficiencyScore_of_ne_zero (annualOutput systemSize : ℚ) (hsize : systemSize ≠ 0) :
    calculateEfficiencyScore annualOutput systemSize =
      JSNum.num ((min 100 (round (100 * (annualOutput / systemSize) / 1200)) : ℤ) : ℚ) := by
  have h1200 : (1200 : ℚ) ≠ 0 := by norm_num
  have harg : annualOutput / systemSize / 1200 * 100 =
      100 * (annualOutput / systemSize) / 1200 := by
    ring
  simp only [calculateEfficiencyScore, jsDiv, jsMul, jsMin, jsRound, if_neg hsize, if_neg h1200]
  rw [harg, round_min_hundred]

/-- The efficiency score of 26061 kWh over 20 kW evaluates to 100. -/
theorem efficiencyScore_at_totals : calculateEfficiencyScore 26061 20 = JSNum.num 100 := by
  have h20 : (20 : ℚ) ≠ 0 := by norm_num
  rw [efficiencyScore_of_ne_zero 26061 20 h20]
  have hq : (100 : ℚ) * (26061 / 20) / 1200 = 26061 / 240 := by norm_num
  rw [hq]
  have hfloor : round ((26061 : ℚ) / 240) = 109 := by
    rw [round_eq]
    rw [Int.floor_eq_iff]
    norm_num
  rw [hfloor]
  norm_num

/-! ### Claims -/

/-- C1 (amended): calculateEfficiencyScore(annualOutput, systemSize) equals
min(100, round(100 * (annualOutput / systemSize) / 1200)) whenever the
system size is nonzero, and the systemSize-is-0-gives-0 guard exists at
the aggregate call site (the ternary of updateZoneAnalysis line 814); the
single-zone call sites apply the function unguarded (see the
counterexample). -/
theorem c1_efficiency_score :
    (∀ annualOutput systemSize : ℚ, systemSize ≠ 0 →
      calculateEfficiencyScore annualOutput systemSize =
        JSNum.num ((min 100 (round (100 * (annualOutput / systemSize) / 1200)) : ℤ) : ℚ)) ∧
    (∀ annualOutput : ℚ, overallEfficiencyOf annualOutput 0 = JSNum.num 0) := by
  constructor
  · exact efficiencyScore_of_ne_zero
  · intro annualOutput
    simp [overallEfficiencyOf]

/-- C1 counterexample: the single-zone display path applies
calculateEfficiencyScore without any zero-size guard, so a zone with zero
panels (system size 0 kW) produces NaN, not the claimed 0. -/
theorem c1_counterexample :
    selectedZoneEfficiency none zoneNoPanels = JSNum.nan ∧ JSNum.nan ≠ JSNum.num 0 := by
  constructor
  · have hsys : ((zoneNoPanels.panelCount : ℚ) * zoneNoPanels.panelWattage) / 1000 = 0 := by
      norm_num [zoneNoPanels, zoneA]
    have hout : calculateEnergyOutput none zoneNoPanels = 0 := by
      norm_num [calculateEnergyOutput, zoneNoPanels, zoneA]
    simp [selectedZoneEfficiency, hout, hsys, calculateEfficiencyScore, jsDiv, jsMul,
      jsMin, jsRound]
  · simp

/-- Witness for c1_efficiency_score at the aggregate totals of the two
sample zones. -/
theorem c1_witness :
    calculateEfficiencyScore 26061 20 = JSNum.num 100 ∧
    overallEfficiencyOf 26061 0 = JSNum.num 0 := by
  have h := c1_efficiency_score.1 26061 20 (by norm_num)
  constructor
  · rw [h]
    have hq : (100 : ℚ) * (26061 / 20) / 1200 = 26061 / 240 := by norm_num
    rw [hq]
    have hfloor : round ((26061 : ℚ) / 240) = 109 := by
      rw [round_eq]
      rw [Int.floor_eq_iff]
      norm_num
    rw [hfloor]
    norm_num
  · exact c1_efficiency_score.2 26061

/-- C2 (amended): updating a zone's geometry through the edited-event
handler recomputes areaSquareMeters to the GeometryAdapter's output for
the new geometry, but also resets panelCount to the constant default 25
returned by calculatePanelCount; every zone with a different id is kept
unchanged, and the selection is untouched. -/
theorem c2_geometry_update (geoArea : Geometry → ℚ) (zoneId : Nat) (newGeom : Geometry)
    (s : AppState) :
    (∀ z ∈ s.drawingZones, z.id = zoneId →
      { z with geometry := newGeom, area := geoArea newGeom, panelCount := 25 }
        ∈ (onDrawEdited geoArea zoneId newGeom s).drawingZones) ∧
    (∀ z ∈ s.drawingZones, z.id ≠ zoneId →
      z ∈ (onDrawEdited geoArea zoneId newGeom s).drawingZones) ∧
    (onDrawEdited geoArea zoneId newGeom s).selectedZone = s.selectedZone := by
  refine ⟨?_, ?_, rfl⟩
  · intro z hz hid
    have hmap := List.mem_map_of_mem (fun zoneData =>
      if zoneData.id = zoneId then
        { zoneData with geometry := newGeom, area := geoArea newGeom,
                        panelCount := calculatePanelCount (geoArea newGeom) }
      else zoneData) hz
    simpa [onDrawEdited, hid, calculatePanelCount] using hmap
  · intro z hz hid
    have hmap := List.mem_map_of_mem (fun zoneData =>
      if zoneData.id = zoneId then
        { zoneData with geometry := newGeom, area := geoArea newGeom,
                        panelCount := calculatePanelCount (geoArea newGeom) }
      else zoneData) hz
    simpa [onDrawEdited, hid] using hmap

/-- C2 counterexample: a zone whose panel count was slid to 60 gets its
panel count reset to 25 by the geometry-edit handler, so the update does
alter panelCount. -/
theorem c2_counterexample :
    ({ initialState with
        drawingZones := [{ zoneA with panelCount := 60 }],
        selectedZone := some 1 } : AppState).drawingZones.map Zone.panelCount = [60] ∧
    ((onDrawEdited (fun _ => 100) 1 geomB
      { initialState with
        drawingZones := [{ zoneA with panelCount := 60 }],
        selectedZone := some 1 }).drawingZones.map Zone.panelCount = [25]) ∧
    (25 : Nat) ≠ 60 := by
  refine ⟨rfl, rfl, by norm_num⟩

/-- Witness for c2_geometry_update: the 60-panel zone is rewritten with the
new geometry, the adapter's area for it, and the default 25 panels. -/
theorem c2_witness :
    { zoneA with geometry := geomB, area := (140 : ℚ), panelCount := 25 }
      ∈ (onDrawEdited (fun _ => (140 : ℚ)) 1 geomB
          { initialState with drawingZones := [zoneA], selectedZone := some 1 }).drawingZones :=
  (c2_geometry_update (fun _ => (140 : ℚ)) 1 geomB
    { initialState with drawingZones := [zoneA], selectedZone := some 1 }).1
    zoneA (by simp) rfl

/-- C4 (amended): paybackPeriod(systemCost, monthlySavings) equals
systemCost / (monthlySavings * 12) whenever monthlySavings is nonzero;
when monthlySavings is 0 and systemCost is positive the unguarded IEEE
division yields the defined value Infinity (not NaN, no crash), and in
particular paybackPeriod(30000, 0) is Infinity; with systemCost 0 as well
the result is NaN (see the counterexample). -/
theorem c4_payback (systemCost monthlySavings : ℚ) :
    (monthlySavings ≠ 0 →
      paybackPeriod systemCost monthlySavings =
        JSNum.num (systemCost / (monthlySavings * 12))) ∧
    (0 < systemCost → paybackPeriod systemCost 0 = JSNum.inf) ∧
    paybackPeriod 30000 0 = JSNum.inf ∧
    JSNum.inf ≠ JSNum.nan := by
  refine ⟨?_, ?_, ?_, by simp⟩
  · intro hm
    have h12 : monthlySavings * 12 ≠ 0 := mul_ne_zero hm (by norm_num)
    simp [paybackPeriod, jsDiv, h12]
  · intro hc
    simp [paybackPeriod, jsDiv, hc, hc.ne']
  · have hc : (0 : ℚ) < 30000 := by norm_num
    simp [paybackPeriod, jsDiv, hc, hc.ne']

/-- C4 counterexample: with systemCost 0 and monthlySavings 0 the unguarded
division produces NaN, so the code does not return a defined sentinel for
every systemCost when monthlySavings is 0. -/
theorem c4_counterexample : paybackPeriod 0 0 = JSNum.nan := by
  simp [paybackPeriod, jsDiv]

/-- Witness for c4_payback: a finite payback at 30000 cost and 5 monthly
savings, and the Infinity value at zero savings. -/
theorem c4_witness :
    paybackPeriod 30000 5 = JSNum.num 500 ∧ paybackPeriod 30000 0 = JSNum.inf := by
  constructor
  · have h := (c4_payback 30000 5).1 (by norm_num)
    rw [h]
    norm_num
  · exact (c4_payback 30000 0).2.1 (by norm_num)

/-- A state with an edit session already active for zone 1. -/
def stateEditing : AppState :=
  { initialState with
    drawingZones := [zoneA, zoneB]
    selectedZone := some 1
    editActive := true
    currentEditingZone := some 1
    originalGeometry := some geomA }

/-- C5 (amended): editZone never rejects a begin-edit while a session is
active; when the requested zone exists it replaces the session state,
overwriting the snapshot with the new zone's geometry and the editing
reference with the new zone, leaving the collection unchanged; when the
zone does not exist it is a no-op.  At most one session exists at any
time only because the session state is a single snapshot and a single
reference. -/
theorem c5_edit_replaces_session (zoneId : Nat) (s : AppState) :
    (s.drawingZones.find? (fun z => z.id = zoneId) = none → editZone zoneId s = s) ∧
    (∀ zoneData, s.drawingZones.find? (fun z => z.id = zoneId) = some zoneData →
      (editZone zoneId s).editActive = true ∧
      (editZone zoneId s).currentEditingZone = some zoneData.id ∧
      (editZone zoneId s).originalGeometry = some zoneData.geometry ∧
      (editZone zoneId s).drawingZones = s.drawingZones) := by
  constructor
  · intro h
    simp [editZone, h]
  · intro zoneData h
    simp [editZone, h]

/-- C5 counterexample: with a session active for zone 1 (snapshot geomA),
calling editZone for zone 2 is not rejected: it succeeds and overwrites
both the snapshot and the editing-zone reference. -/
theorem c5_counterexample :
    stateEditing.currentEditingZone = some 1 ∧
    stateEditing.originalGeometry = some geomA ∧
    (editZone 2 stateEditing).currentEditingZone = some 2 ∧
    (editZone 2 stateEditing).originalGeometry = some geomB ∧
    geomB ≠ geomA := by
  refine ⟨by rfl, by rfl, by rfl, by rfl, ?_⟩
  simp only [geomA, geomB, ne_eq, Geometry.mk.injEq]
  norm_num

/-- Witness for c5_edit_replaces_session at the concrete editing state. -/
theorem c5_witness :
    (editZone 2 stateEditing).editActive = true ∧
    (editZone 2 stateEditing).currentEditingZone = some zoneB.id ∧
    (editZone 2 stateEditing).originalGeometry = some zoneB.geometry ∧
    (editZone 2 stateEditing).drawingZones = stateEditing.drawingZones :=
  (c5_edit_replaces_session 2 stateEditing).2 zoneB rfl

/-- findIndex returns none exactly when no element satisfies the
predicate. -/
theorem findIndex_eq_none_iff (p : Zone → Bool) (zones : List Zone) :
    findIndex p zones = none ↔ ∀ z ∈ zones, ¬ p z := by
  induction zones with
  | nil => simp [findIndex]
  | cons a rest ih =>
    by_cases hpa : p a <;> simp [findIndex, hpa, ih]

/-- An element that does not satisfy the predicate survives erasing the
element at the found index. -/
theorem mem_eraseIdx_of_findIndex (p : Zone → Bool) (zones : List Zone) (i : Nat)
    (hfi : findIndex p zones = some i) (z : Zone) (hz : z ∈ zones) (hpz : ¬ p z) :
    z ∈ zones.eraseIdx i := by
  induction zones generalizing i with
  | nil => simp [findIndex] at hfi
  | cons a rest ih =>
    by_cases hpa : p a
    · simp only [findIndex, if_pos hpa, Option.some.injEq] at hfi
      subst hfi
      rcases List.mem_cons.mp hz with rfl | hz2
      · exact absurd hpa hpz
      · simpa using hz2
    · simp only [findIndex, if_neg hpa, Option.map_eq_some'] at hfi
      obtain ⟨j, hj, hji⟩ := hfi
      subst hji
      rcases List.mem_cons.mp hz with rfl | hz2
      · simp
      · simpa using Or.inr (ih j hj hz2)

/-- findIndex succeeds when some element satisfies the predicate. -/
theorem findIndex_isSome_of_mem (p : Zone → Bool) (zones : List Zone) (z : Zone)
    (hz : z ∈ zones) (hpz : p z) : ∃ i, findIndex p zones = some i := by
  induction zones with
  | nil => cases hz
  | cons a rest ih =>
    by_cases hpa : p a
    · exact ⟨0, by simp [findIndex, hpa]⟩
    · rcases List.mem_cons.mp hz with rfl | hz2
      · exact absurd hpz hpa
      · obtain ⟨j, hj⟩ := ih hz2
        exact ⟨j + 1, by simp [findIndex, hpa, hj]⟩

/-- The selection invariant: the selected zone, when one exists, is a
member of the store. -/
def SelectionInv (s : AppState) : Prop :=
  ∀ zoneId, s.selectedZone = some zoneId → zoneId ∈ s.drawingZones.map Zone.id

/-- Characterization of deleteZone when the zone is found: the entry at the
found index is removed, and the new selection is the old one unless the
deleted zone was selected or nothing was selected, in which case it is
the first remaining zone (or none). -/
theorem deleteZone_found (zoneId : Nat) (s : AppState) (i : Nat)
    (hfi : findIndex (fun z => z.id = zoneId) s.drawingZones = some i) :
    (deleteZone zoneId s).drawingZones = s.drawingZones.eraseIdx i ∧
    (deleteZone zoneId s).selectedZone =
      (match (if s.selectedZone = some zoneId then none else s.selectedZone) with
       | none => (s.drawingZones.eraseIdx i).head?.map Zone.id
       | some sel => some sel) := by
  constructor
  · simp [deleteZone, hfi]
  · rcases hC : (if s.selectedZone = some zoneId then none else s.selectedZone) with _ | sel <;>
      rcases hrem : s.drawingZones.eraseIdx i with _ | ⟨first, rest⟩ <;>
        simp [deleteZone, hfi, hC, hrem]

/-- C3 (amended): for deletion through deleteZone the claimed behaviour
holds — unknown ids are no-ops, the membership selection invariant is
preserved by zone creation and deletion (hence along every such
sequence), and after deleting the currently selected zone the selection
becomes the first remaining zone or none — but deletion through the
draw-control handler (onDrawDeleted) does not update the selection, which
can then refer to a zone no longer in the store (see the
counterexample). -/
theorem c3_selection (geoArea : Geometry → ℚ) (g : Geometry) (k : ShapeKind)
    (zoneId : Nat) (s : AppState) :
    ((∀ z ∈ s.drawingZones, z.id ≠ zoneId) → deleteZone zoneId s = s) ∧
    (SelectionInv s → SelectionInv (onDrawCreated geoArea g k s)) ∧
    (SelectionInv s → SelectionInv (deleteZone zoneId s)) ∧
    (s.selectedZone = some zoneId → zoneId ∈ s.drawingZones.map Zone.id →
      (deleteZone zoneId s).selectedZone =
        ((deleteZone zoneId s).drawingZones.head?).map Zone.id) := by
  refine ⟨?_, ?_, ?_, ?_⟩
  · intro h
    have hnone : findIndex (fun z => z.id = zoneId) s.drawingZones = none := by
      rw [findIndex_eq_none_iff]
      intro z hz
      simpa using h z hz
    simp [deleteZone, hnone]
  · intro hinv zid2 hsel
    simp only [onDrawCreated, Option.some.injEq] at hsel
    subst hsel
    simp [onDrawCreated]
  · intro hinv zid2 hsel
    rcases hfi : findIndex (fun z => z.id = zoneId) s.drawingZones with _ | i
    · simp only [deleteZone, hfi] at hsel ⊢
      exact hinv zid2 hsel
    · obtain ⟨hzones, hselEq⟩ := deleteZone_found zoneId s i hfi
      rw [hselEq] at hsel
      rw [hzones]
      rcases hC : (if s.selectedZone = some zoneId then none else s.selectedZone) with _ | sel
      · rw [hC] at hsel
        rcases hrem : s.drawingZones.eraseIdx i with _ | ⟨first, rest⟩
        · rw [hrem] at hsel
          simp at hsel
        · rw [hrem] at hsel
          simp only [List.head?_cons, Option.map_some', Option.some.injEq] at hsel
          subst hsel
          simp
      · rw [hC] at hsel
        simp only [Option.some.injEq] at hsel
        subst hsel
        have hCfacts : s.selectedZone = some sel ∧ sel ≠ zoneId := by
          by_cases h : s.selectedZone = some zoneId
          · rw [if_pos h] at hC
            cases hC
          · rw [if_neg h] at hC
            refine ⟨hC, fun he => h (by rw [hC, he])⟩
        obtain ⟨hselv, hne⟩ := hCfacts
        obtain ⟨z, hzmem, hzid2⟩ := List.mem_map.mp (hinv sel hselv)
        refine List.mem_map.mpr ⟨z, ?_, hzid2⟩
        apply mem_eraseIdx_of_findIndex _ _ i hfi z hzmem
        simp [hzid2, hne]
  · intro hsel hmem
    obtain ⟨z, hzmem, hzid⟩ := List.mem_map.mp hmem
    obtain ⟨i, hfi⟩ := findIndex_isSome_of_mem (fun w => w.id = zoneId) _ z hzmem
      (by simp [hzid])
    obtain ⟨hzones, hselEq⟩ := deleteZone_found zoneId s i hfi
    rw [hselEq, hzones, if_pos hsel]

/-- C3 counterexample: deleting the selected zone through the draw-control
handler leaves the selection pointing at the removed zone: the store
becomes empty while the selection still holds the deleted id. -/
theorem c3_counterexample :
    ((onDrawDeleted 1 (onDrawCreated (fun _ => 100) geomA .polygon
        initialState)).drawingZones = []) ∧
    ((onDrawDeleted 1 (onDrawCreated (fun _ => 100) geomA .polygon
        initialState)).selectedZone = some 1) := by
  constructor <;> rfl

/-- Witness for c3_selection: deleting the selected first of two zones
selects the remaining one. -/
theorem c3_witness :
    (deleteZone 1 stateEditing).selectedZone =
      ((deleteZone 1 stateEditing).drawingZones.head?).map Zone.id :=
  (c3_selection (fun _ => 100) geomA .polygon 1 stateEditing).2.2.2 (by rfl)
    (by simp [stateEditing, zoneA, zoneB])

/-- Searching a mapped list for an id finds the image of the zone found in
the original list, provided the mapping preserves ids. -/
theorem find?_map_of_id_preserving (zoneId : Nat) (f : Zone → Zone)
    (hf : ∀ w, (f w).id = w.id) (zones : List Zone) :
    (zones.map f).find? (fun w => w.id = zoneId) =
      (zones.find? (fun w => w.id = zoneId)).map f := by
  induction zones with
  | nil => rfl
  | cons a rest ih =>
    by_cases ha : a.id = zoneId
    · rw [List.map_cons, List.find?_cons_of_pos, List.find?_cons_of_pos]
      · simp
      · simp [ha]
      · simp [hf, ha]
    · rw [List.map_cons, List.find?_cons_of_neg, List.find?_cons_of_neg, ih]
      · simp [ha]
      · simp [hf, ha]

/-- C6: beginning an edit on a zone, mutating its geometry arbitrarily and
cancelling restores the zone record exactly — its geometry comes back
from the snapshot and its areaSquareMeters returns to the pre-edit value
(assuming the stored area was consistent with the stored geometry, the
invariant the store maintains) — and the snapshot is discarded. -/
theorem c6_cancel_roundtrip (geoArea : Geometry → ℚ) (s : AppState) (z : Zone)
    (newGeom : Geometry)
    (hz : s.drawingZones.find? (fun w => w.id = z.id) = some z)
    (harea : z.area = geoArea z.geometry) :
    ((cancelZoneEdit geoArea (mutateGeometry z.id newGeom
        (editZone z.id s))).drawingZones.find? (fun w => w.id = z.id) = some z) ∧
    (cancelZoneEdit geoArea (mutateGeometry z.id newGeom
        (editZone z.id s))).originalGeometry = none := by
  have hstep1 : editZone z.id s =
      { s with originalGeometry := some z.geometry, currentEditingZone := some z.id,
               editActive := true } := by
    simp [editZone, hz]
  have hzones : (cancelZoneEdit geoArea (mutateGeometry z.id newGeom
      (editZone z.id s))).drawingZones =
      (s.drawingZones.map fun w =>
        if w.id = z.id then { w with geometry := newGeom } else w).map fun w =>
          if w.id = z.id then { w with geometry := z.geometry, area := geoArea z.geometry }
          else w := by
    rw [hstep1]
    rfl
  have hsession : (cancelZoneEdit geoArea (mutateGeometry z.id newGeom
      (editZone z.id s))).originalGeometry = none := by
    rw [hstep1]
    rfl
  refine ⟨?_, hsession⟩
  rw [hzones, List.map_map]
  rw [find?_map_of_id_preserving z.id _ ?_ s.drawingZones]
  · rw [hz]
    simp only [Option.map_some', Function.comp_apply, if_pos]
    rw [← harea]
  · intro w
    by_cases hw : w.id = z.id <;> simp [hw]

/-- Witness for c6_cancel_roundtrip: zone 1 of the editing state, whose
stored 100 m² area matches the constant-100 adapter, survives an edit and
cancel unchanged. -/
theorem c6_witness :
    ((cancelZoneEdit (fun _ => 100) (mutateGeometry zoneA.id geomB
        (editZone zoneA.id stateEditing))).drawingZones.find?
          (fun w => w.id = zoneA.id) = some zoneA) ∧
    (cancelZoneEdit (fun _ => 100) (mutateGeometry zoneA.id geomB
        (editZone zoneA.id stateEditing))).originalGeometry = none :=
  c6_cancel_roundtrip (fun _ => 100) stateEditing zoneA geomB (by rfl) (by rfl)

/-- The forEach accumulation of updateZoneAnalysis computes, for each
component, the initial value plus the corresponding per-zone sum. -/
theorem aggregate_foldl (sunlightDaily : Option ℚ) (zones : List Zone) :
    ∀ (a : ℚ) (b : Nat) (c d : ℚ),
      zones.foldl (aggregateStep sunlightDaily) (a, b, c, d) =
        (a + (zones.map Zone.area).sum,
         b + (zones.map Zone.panelCount).sum,
         c + (zones.map fun z => ((z.panelCount : ℚ) * z.panelWattage) / 1000).sum,
         d + (zones.map (calculateEnergyOutput sunlightDaily)).sum) := by
  induction zones with
  | nil =>
    intro a b c d
    simp
  | cons z rest ih =>
    intro a b c d
    simp only [List.foldl_cons, List.map_cons, List.sum_cons, aggregateStep]
    rw [ih]
    simp only [Prod.mk.injEq]
    refine ⟨by ring, by omega, by ring, by ring⟩

/-- C7: the aggregation sums areaSquareMeters, panelCount, systemSizeKW and
annualEnergyOutputKWh over all zones and derives one overall efficiency
from the summed output and summed size; the empty collection gives
all-zero totals with efficiency 0 and no division; and the two sample
zones (100 and 200 m², 25 panels each, 400 W, ratio 0.85, 4.2 daily
hours) total 20 kW, 26061 kWh (within 10 of the quoted 26068.5) and an
overall efficiency of 100. -/
theorem c7_aggregate :
    (aggregateTotals none [] =
      { zones := 0, totalArea := 0, totalPanels := 0, totalPower := 0,
        totalAnnualOutput := 0, overallEfficiency := JSNum.num 0 }) ∧
    (∀ (sunlightDaily : Option ℚ) (zones : List Zone),
      aggregateTotals sunlightDaily zones =
        { zones := zones.length,
          totalArea := (zones.map Zone.area).sum,
          totalPanels := (zones.map Zone.panelCount).sum,
          totalPower := (zones.map fun z => ((z.panelCount : ℚ) * z.panelWattage) / 1000).sum,
          totalAnnualOutput := (zones.map (calculateEnergyOutput sunlightDaily)).sum,
          overallEfficiency :=
            overallEfficiencyOf ((zones.map (calculateEnergyOutput sunlightDaily)).sum)
              ((zones.map fun z => ((z.panelCount : ℚ) * z.panelWattage) / 1000).sum) }) ∧
    ((aggregateTotals none [zoneA, zoneB]).totalPower = 20 ∧
     (aggregateTotals none [zoneA, zoneB]).totalAnnualOutput = 26061 ∧
     |(aggregateTotals none [zoneA, zoneB]).totalAnnualOutput - 26068.5| ≤ 10 ∧
     (aggregateTotals none [zoneA, zoneB]).overallEfficiency = JSNum.num 100) := by
  have hgen : ∀ (sunlightDaily : Option ℚ) (zones : List Zone),
      aggregateTotals sunlightDaily zones =
        { zones := zones.length,
          totalArea := (zones.map Zone.area).sum,
          totalPanels := (zones.map Zone.panelCount).sum,
          totalPower := (zones.map fun z => ((z.panelCount : ℚ) * z.panelWattage) / 1000).sum,
          totalAnnualOutput := (zones.map (calculateEnergyOutput sunlightDaily)).sum,
          overallEfficiency :=
            overallEfficiencyOf ((zones.map (calculateEnergyOutput sunlightDaily)).sum)
              ((zones.map fun z => ((z.panelCount : ℚ) * z.panelWattage) / 1000).sum) } := by
    intro sunlightDaily zones
    simp only [aggregateTotals, aggregate_foldl, zero_add]
  have hpow : (([zoneA, zoneB]).map fun z =>
      ((z.panelCount : ℚ) * z.panelWattage) / 1000).sum = 20 := by
    norm_num [zoneA, zoneB]
  have hout : (([zoneA, zoneB]).map (calculateEnergyOutput none)).sum = 26061 := by
    norm_num [zoneA, zoneB, calculateEnergyOutput]
  refine ⟨?_, hgen, ?_, ?_, ?_, ?_⟩
  · rw [hgen]
    simp [overallEfficiencyOf]
  · rw [hgen]
    exact hpow
  · rw [hgen]
    exact hout
  · rw [hgen]
    simp only [hout]
    rw [abs_le]
    constructor <;> norm_num
  · rw [hgen]
    simp only [hout, hpow]
    have h20 : (0 : ℚ) < 20 := by norm_num
    rw [overallEfficiencyOf, if_pos h20]
    exact efficiencyScore_at_totals

/-- C8: for every zone with a positive performance ratio,
annualEnergyOutputKWh(zone, irradiance) equals
(panelCount * panelWattageWatts / 1000) * dailyHours * 365 *
performanceRatio, and when no irradiance sample is available the
computation uses the conservative default of 4.2 daily sun hours. -/
theorem c8_energy_output (zoneData : Zone) (h : 0 < zoneData.efficiency) :
    (∀ d : ℚ, 0 < d →
      calculateEnergyOutput (some d) zoneData =
        (zoneData.panelCount : ℚ) * zoneData.panelWattage / 1000 * d * 365 *
          zoneData.efficiency) ∧
    calculateEnergyOutput none zoneData =
      (zoneData.panelCount : ℚ) * zoneData.panelWattage / 1000 * 4.2 * 365 *
        zoneData.efficiency := by
  constructor
  · intro d hd
    simp [calculateEnergyOutput, hd.ne', h.ne']
  · simp [calculateEnergyOutput, h.ne']

/-- Witness for c8_energy_output at the default zone configuration. -/
theorem c8_witness :
    (0 : ℚ) < zoneA.efficiency ∧
    calculateEnergyOutput none zoneA =
      (zoneA.panelCount : ℚ) * zoneA.panelWattage / 1000 * 4.2 * 365 * zoneA.efficiency :=
  ⟨by norm_num [zoneA], (c8_energy_output zoneA (by norm_num [zoneA])).2⟩

/-- C9: maxRecommendedPanels(area) = floor(area * 0.7 / 2), in particular 49
at 140 m², and it is advisory only: the slider handler always stores the
requested panel count on the selected zone (never a rejection) and the
warning is surfaced exactly when the count exceeds the recommended
maximum. -/
theorem c9_max_recommended (area : ℚ) (_harea : 0 ≤ area) (s : AppState) (zoneId : Nat)
    (zoneData : Zone) (count : Nat)
    (hsel : s.selectedZone = some zoneId)
    (hfind : s.drawingZones.find? (fun z => z.id = zoneId) = some zoneData) :
    calculateMaxRecommendedPanels area = Int.floor (area * 0.7 / 2) ∧
    calculateMaxRecommendedPanels 140 = 49 ∧
    { zoneData with panelCount := count } ∈ (sliderInput count s).1.drawingZones ∧
    ((sliderInput count s).2 = true ↔
      calculateMaxRecommendedPanels zoneData.area < (count : ℤ)) := by
  have hid : zoneData.id = zoneId := by
    have := List.find?_some hfind
    simpa using this
  have hmem : zoneData ∈ s.drawingZones := List.mem_of_find?_eq_some hfind
  refine ⟨rfl, maxRecommended_at_140, ?_, ?_⟩
  · have hmap := List.mem_map_of_mem
      (fun z => if z.id = zoneId then { z with panelCount := count } else z) hmem
    simp only [sliderInput, hsel, hfind]
    simpa [hid] using hmap
  · simp [sliderInput, hsel, hfind]

/-- Witness for c9_max_recommended: a selected 140 m² zone accepts 60 panels
(above the recommended 49) and the warning flag is set. -/
theorem c9_witness :
    calculateMaxRecommendedPanels 140 = 49 ∧
    { zoneA with area := 140, panelCount := 60 } ∈
      (sliderInput 60 { initialState with
        drawingZones := [{ zoneA with area := 140 }],
        selectedZone := some 1 }).1.drawingZones ∧
    (sliderInput 60 { initialState with
        drawingZones := [{ zoneA with area := 140 }],
        selectedZone := some 1 }).2 = true := by
  have h := c9_max_recommended 140 (by norm_num)
    { initialState with drawingZones := [{ zoneA with area := 140 }], selectedZone := some 1 }
    1 { zoneA with area := 140 } 60 rfl rfl
  refine ⟨h.2.1, h.2.2.1, h.2.2.2.mpr ?_⟩
  show calculateMaxRecommendedPanels (140 : ℚ) < (60 : ℤ)
  rw [maxRecommended_at_140]
  norm_num

/-- C10: each fetched daily sunshine-duration value that is non-null and
greater than 24 is treated as seconds and divided by 3600, values at most
24 pass through unchanged, null entries stay null, and the daily average
ignores null entries (averaging over a list equals averaging over its
non-null entries). -/
theorem c10_sunshine_processing :
    (∀ v : ℚ, 24 < v → processSunshineValue (some v) = some (v / 3600)) ∧
    (∀ v : ℚ, v ≤ 24 → processSunshineValue (some v) = some v) ∧
    processSunshineValue none = none ∧
    (∀ l : List (Option ℚ),
      validHours (processHours l) =
        (validHours l).map fun v => if 24 < v then v / 3600 else v) ∧
    (∀ l : List (Option ℚ),
      calculateDailyAverage l = calculateDailyAverage ((validHours l).map some)) := by
  refine ⟨?_, ?_, rfl, ?_, ?_⟩
  · intro v hv
    simp [processSunshineValue, hv]
  · intro v hv
    simp [processSunshineValue, not_lt.mpr hv]
  · intro l
    induction l with
    | nil => rfl
    | cons a rest ih =>
      cases a with
      | none => simpa [processHours, validHours, processSunshineValue] using ih
      | some v =>
        by_cases hv : 24 < v <;>
          simpa [processHours, validHours, processSunshineValue, hv] using ih
  · intro l
    have hsame : validHours ((validHours l).map some) = validHours l := by
      simp [validHours, List.filterMap_map]
    simp [calculateDailyAverage, hsame]

/-- Witness for c10_sunshine_processing: a 36000-second entry becomes 10
hours and a 12-hour entry passes through. -/
theorem c10_witness :
    processSunshineValue (some 36000) = some 10 ∧
    processSunshineValue (some 12) = some 12 := by
  have h1 := c10_sunshine_processing.1 36000 (by norm_num)
  have h2 := c10_sunshine_processing.2.1 12 (by norm_num)
  rw [h1, h2]
  norm_num

end SolarVision
